import Mathlib

/-!
Verification of the template-dispatch layer of `src/image_generation/image_editor.py`
(class `ImageEditor`).

The embedding below translates, from the Python source:
  * the immutable template table `ImageEditor.editing_templates` (11 categories,
    66 keys, values being instruction templates with zero or more `{name}`
    placeholders);
  * Python's `str.format(**kwargs)` restricted to the simple `{name}` fields
    that occur in the table (`pyFormat`): a single left-to-right pass that
    replaces each field by the bound value, does not rescan substituted
    values, and fails (Python `KeyError`) when a field's name is unbound;
  * the per-feature prompt builders `perspective_transform`, `style_transform`,
    `environment_transform`, `object_transform`, `generate_avatar`, `ai_remove`,
    `ai_redraw`, `virtual_scene`, `outfit_simulation`, `text_design`,
    `poster_design` (only their pure instruction-string construction; the
    diffusion-backend call and file output they hand the string to are outside
    the dispatch layer);
  * `get_available_templates`.

The spec's `resolve(category, key, parameters)` is the dispatch over these
builders; `resolveT` makes the table an explicit parameter and `resolve`
instantiates it with the table from the source.  The spec's `parameters`
mapping is realised by the builders' free-text arguments: every builder takes
one free-text value (`value`), and `text_design` additionally takes a font
style (`fontStyle`, Python default `"modern"`); an argument the Python caller
omits is its default, the empty string.
-/

namespace ImgEd

/-- Table type of `ImageEditor.editing_templates`: an insertion-ordered mapping
from category name to an insertion-ordered mapping from operation key to
template string. -/
abbrev Table := List (String × List (String × String))

/-- Errors of the dispatch layer: `unknownCategory` when the category is not in
the table (the spec's `UnknownCategory`), `formatKeyError` when Python's
`str.format` would raise because a field name in the template is unbound. -/
inductive DispatchError where
  | unknownCategory
  | formatKeyError
deriving DecidableEq

/-- Boolean test that the first list is an initial segment of the second. -/
def charsStartWith : List Char → List Char → Bool
  | [], _ => true
  | _ :: _, [] => false
  | a :: as, b :: bs => a == b && charsStartWith as bs

/-- Boolean test that `sub` occurs contiguously inside the second list. -/
def charsContain (sub : List Char) : List Char → Bool
  | [] => sub.isEmpty
  | c :: rest => charsStartWith sub (c :: rest) || charsContain sub rest

/-- Python's substring test `sub in s`. -/
def strIn (sub s : String) : Bool := charsContain sub.data s.data

/-- Scan of the characters of a format field up to its closing brace: returns
the field name and the remainder, or `none` when the field is unterminated
(Python `str.format` raises `ValueError` there). -/
def splitAtBrace : List Char → Option (List Char × List Char)
  | [] => none
  | c :: rest =>
    if c = '}' then some ([], rest)
    else
      match splitAtBrace rest with
      | none => none
      | some (n, r) => some (c :: n, r)

/-- Fuel-indexed single pass of Python `str.format` over simple `{name}`
fields: each field is replaced by the value bound to its name, an unbound name
is a failure (Python `KeyError`), and substituted values are not rescanned.
The fuel only serves structural termination; `pyFormat` supplies enough fuel
that it is never exhausted.  Stray unbalanced braces do not occur in any
template of the table, so their Python-side corner cases are immaterial. -/
def fmtAux (p : String → Option String) : Nat → List Char → Option (List Char)
  | 0, _ => none
  | _ + 1, [] => some []
  | fuel + 1, c :: rest =>
    if c = '{' then
      match splitAtBrace rest with
      | none => none
      | some (n, r) =>
        match p (String.mk n) with
        | none => none
        | some v =>
          match fmtAux p fuel r with
          | none => none
          | some out => some (v.data ++ out)
    else
      match fmtAux p fuel rest with
      | none => none
      | some out => some (c :: out)

/-- Python `tmpl.format(**kwargs)` for the simple fields used by the table. -/
def pyFormat (tmpl : String) (p : String → Option String) : Option String :=
  match fmtAux p (tmpl.data.length + 1) tmpl.data with
  | none => none
  | some l => some (String.mk l)

/-- Keyword-argument mapping of a `format` call site, as a name lookup. -/
def pmap (l : List (String × String)) : String → Option String :=
  fun n => Option.map Prod.snd (List.find? (fun x => x.1 == n) l)

/-- Lift of a `format` outcome into the dispatch result: a `none` from
`pyFormat` is Python's uncaught `KeyError`. -/
def fmtCase : Option String → Except DispatchError String
  | none => .error .formatKeyError
  | some s => .ok s

/-- Template instantiation at a call site: `tmpl.format(**l)`. -/
def fmtMany (t : String) (l : List (String × String)) : Except DispatchError String :=
  fmtCase (pyFormat t (pmap l))

/-- The table `ImageEditor.editing_templates` (image_editor.py lines 47-140),
transcribed verbatim; apostrophes in templates are written `\x27`. -/
def editing_templates : Table := [
  ("视角转换", [
    ("从正面看", "Change the view to front view, clear and detailed"),
    ("从侧面看", "Change the view to side view, clear and detailed"),
    ("从背面看", "Change the view to back view, clear and detailed"),
    ("从上往下看", "Change the view to top-down view, bird\x27s eye view"),
    ("从下往上看", "Change the view to bottom-up view, low angle view"),
    ("俯视图", "Convert to aerial view, overhead perspective"),
    ("仰视图", "Convert to upward view, worm\x27s eye view")]),
  ("风格转换", [
    ("油画风格", "Convert to oil painting style, artistic brush strokes"),
    ("水彩风格", "Convert to watercolor style, soft and flowing"),
    ("素描风格", "Convert to pencil sketch style, black and white drawing"),
    ("动漫风格", "Convert to anime style, manga artwork"),
    ("照片风格", "Convert to photorealistic style, highly detailed"),
    ("印象派", "Convert to impressionist painting style"),
    ("抽象艺术", "Convert to abstract art style")]),
  ("环境变换", [
    ("白天转夜晚", "Change from day to night, add moonlight and stars"),
    ("夜晚转白天", "Change from night to day, add bright sunlight"),
    ("晴天转雨天", "Change to rainy weather, add rain drops and clouds"),
    ("室内转室外", "Move the scene from indoor to outdoor setting"),
    ("现代转古代", "Change the setting from modern to ancient times"),
    ("城市转乡村", "Change the setting from city to countryside"),
    ("春天转秋天", "Change the season from spring to autumn")]),
  ("对象变换", [
    ("改变颜色", "Change the color to {color}"),
    ("改变材质", "Change the material to {material}"),
    ("改变大小", "Change the size to {size}"),
    ("添加装饰", "Add decorative elements like {decoration}"),
    ("改变表情", "Change the facial expression to {expression}"),
    ("改变姿态", "Change the pose to {pose}"),
    ("改变服装", "Change the clothing to {clothing}")]),
  ("虚拟形象生成", [
    ("生成3D虚拟人", "Generate a 3D virtual avatar, realistic human appearance"),
    ("卡通角色", "Create cartoon character avatar, stylized and cute"),
    ("动漫人物", "Generate anime character, manga style illustration"),
    ("游戏角色", "Create game character design, fantasy RPG style"),
    ("商务形象", "Generate professional business avatar, formal appearance"),
    ("时尚模特", "Create fashion model avatar, trendy and stylish")]),
  ("AI消除", [
    ("移除对象", "Remove the {object} from the image completely"),
    ("消除水印", "Remove watermarks and logos from the image"),
    ("清除背景", "Remove background, make it transparent or solid color"),
    ("去除文字", "Remove all text and writing from the image"),
    ("消除瑕疵", "Remove imperfections, spots, and blemishes"),
    ("删除人物", "Remove people from the image")]),
  ("AI重绘", [
    ("局部重绘", "Redraw the selected area with {description}"),
    ("背景重绘", "Redraw the background as {background}"),
    ("人物重绘", "Redraw the person with {features}"),
    ("物体重绘", "Redraw the object as {new_object}"),
    ("全图重绘", "Completely redraw the image in {style} style"),
    ("细节重绘", "Enhance and redraw fine details")]),
  ("虚拟场景", [
    ("科幻场景", "Transform into futuristic sci-fi environment"),
    ("奇幻世界", "Create fantasy world with magical elements"),
    ("历史场景", "Transform into historical setting of {period}"),
    ("自然风光", "Create natural landscape scene with {elements}"),
    ("城市场景", "Generate urban cityscape environment"),
    ("室内空间", "Create interior space design for {room_type}")]),
  ("穿搭模拟", [
    ("换装试衣", "Change clothing to {clothing_style}"),
    ("配饰搭配", "Add accessories like {accessories}"),
    ("发型变换", "Change hairstyle to {hairstyle}"),
    ("妆容调整", "Adjust makeup style to {makeup_style}"),
    ("颜色搭配", "Change color scheme to {color_theme}"),
    ("季节穿搭", "Change outfit for {season} season")]),
  ("文字设计", [
    ("艺术字体", "Add artistic text \x27{text}\x27 with {font_style} style"),
    ("标题设计", "Design title text \x27{title}\x27 with professional layout"),
    ("logo设计", "Create logo design with text \x27{logo_text}\x27"),
    ("书法字体", "Add calligraphy text \x27{text}\x27 in {calligraphy_style}"),
    ("立体文字", "Create 3D text effect for \x27{text}\x27"),
    ("霓虹文字", "Add neon light text effect for \x27{text}\x27")]),
  ("海报编辑", [
    ("电影海报", "Design movie poster style with {theme}"),
    ("音乐海报", "Create music concert poster design"),
    ("活动海报", "Design event poster for {event_type}"),
    ("产品海报", "Create product advertisement poster"),
    ("复古海报", "Design vintage poster style with retro elements"),
    ("简约海报", "Create minimalist poster design")]) ]

/-- Key-to-template mapping of one category of a table: `table[cat]` read
through Python's `in`/`[]` dictionary protocol (empty when the category is
absent, which for the source table never happens on its own call sites). -/
def categoryTemplatesT (tbl : Table) (cat : String) : List (String × String) :=
  match List.find? (fun c => c.1 == cat) tbl with
  | none => []
  | some c => c.2

/-- Lookup of `(category, key)` in a table: `some` its template exactly when
`key in table[category]`. -/
def tmplLookupT (tbl : Table) (cat k : String) : Option String :=
  Option.map Prod.snd (List.find? (fun e => e.1 == k) (categoryTemplatesT tbl cat))

/-- Category list of the source table. -/
def categoryTemplates : String → List (String × String) :=
  categoryTemplatesT editing_templates

/-- Lookup in the source table. -/
def tmplLookup : String → String → Option String :=
  tmplLookupT editing_templates

/-- Category names of the table, in insertion order. -/
def categoryNames : List String := editing_templates.map Prod.fst

/-- Branches of `perspective_transform` (lines 385-390) on the lookup result. -/
def perspectiveCase (k : String) : Option String → Except DispatchError String
  | some t => .ok t
  | none => .ok ("Change the perspective view to " ++ k ++ ", clear and detailed")

/-- Branches of `style_transform` (lines 402-407). -/
def styleCase (k : String) : Option String → Except DispatchError String
  | some t => .ok t
  | none => .ok ("Convert the image to " ++ k ++ " style")

/-- Branches of `environment_transform` (lines 419-424). -/
def environmentCase (k : String) : Option String → Except DispatchError String
  | some t => .ok t
  | none => .ok ("Change the environment to " ++ k)

/-- Branches of `object_transform` (lines 437-458): the source's sequential
`if "\x7bcolor\x7d" in ... elif ...` placeholder dispatch. -/
def objectCase (k v : String) : Option String → Except DispatchError String
  | some t =>
    if strIn "{color}" t then fmtMany t [("color", v)]
    else if strIn "{material}" t then fmtMany t [("material", v)]
    else if strIn "{size}" t then fmtMany t [("size", v)]
    else if strIn "{decoration}" t then fmtMany t [("decoration", v)]
    else if strIn "{expression}" t then fmtMany t [("expression", v)]
    else if strIn "{pose}" t then fmtMany t [("pose", v)]
    else if strIn "{clothing}" t then fmtMany t [("clothing", v)]
    else .ok t
  | none => .ok ("Change the " ++ k ++ " to " ++ v)

/-- Branches of `generate_avatar` (lines 552-563): base prompt from the table
or a fallback, then `", <description>"` appended when the description is
non-empty (Python truthiness of the string). -/
def avatarCase (k desc : String) (o : Option String) : Except DispatchError String :=
  if desc = "" then .ok (o.getD ("Generate " ++ k ++ " avatar"))
  else .ok (o.getD ("Generate " ++ k ++ " avatar") ++ ", " ++ desc)

/-- Branches of `ai_remove` (lines 584-592). -/
def removeCase (k target : String) : Option String → Except DispatchError String
  | some t => if strIn "{object}" t then fmtMany t [("object", target)] else .ok t
  | none => .ok ("Remove " ++ k ++ " from the image")

/-- Branches of `ai_redraw` (lines 652-666): one `format` call binding all
five placeholder names to the same description when any of them occurs,
otherwise `", <description>"` appended. -/
def redrawCase (k desc : String) : Option String → Except DispatchError String
  | some t =>
    if strIn "{description}" t || strIn "{background}" t || strIn "{features}" t
        || strIn "{new_object}" t || strIn "{style}" t then
      fmtMany t [("description", desc), ("background", desc), ("features", desc),
        ("new_object", desc), ("style", desc)]
    else .ok (t ++ ", " ++ desc)
  | none => .ok ("Redraw " ++ k ++ " as " ++ desc)

/-- Base branches of `virtual_scene` (lines 681-693). -/
def sceneBase (k elems : String) : Option String → Except DispatchError String
  | some t =>
    if strIn "{period}" t then fmtMany t [("period", elems)]
    else if strIn "{elements}" t then fmtMany t [("elements", elems)]
    else if strIn "{room_type}" t then fmtMany t [("room_type", elems)]
    else .ok t
  | none => .ok ("Transform into " ++ k ++ " scene")

/-- Suffix step of `virtual_scene` (lines 695-696): `" with <elems>"` appended
when `elems` is non-empty and the raw looked-up template (`""` when the key is
absent) contains no brace. -/
def sceneSuffix (elems raw : String) : Except DispatchError String → Except DispatchError String
  | .error e => .error e
  | .ok prompt =>
    if elems ≠ "" ∧ ¬ (strIn "\x7b" raw = true) then .ok (prompt ++ " with " ++ elems)
    else .ok prompt

/-- Branches of `outfit_simulation` (lines 710-722): one `format` call binding
all six placeholder names to the same details string. -/
def outfitCase (k details : String) : Option String → Except DispatchError String
  | some t =>
    fmtMany t [("clothing_style", details), ("accessories", details), ("hairstyle", details),
      ("makeup_style", details), ("color_theme", details), ("season", details)]
  | none => .ok ("Change " ++ k ++ " to " ++ details)

/-- Branches of `text_design` (lines 738-749): one `format` call binding the
five placeholder names, content names to the text content and style names to
the font style. -/
def textCase (k content font : String) : Option String → Except DispatchError String
  | some t =>
    fmtMany t [("text", content), ("font_style", font), ("title", content),
      ("logo_text", content), ("calligraphy_style", font)]
  | none => .ok ("Add " ++ k ++ " text \x27" ++ content ++ "\x27 with " ++ font ++ " style")

/-- Base branches of `poster_design` (lines 764-774). -/
def posterBase (k theme : String) : Option String → Except DispatchError String
  | some t =>
    if strIn "{theme}" t then fmtMany t [("theme", theme)]
    else if strIn "{event_type}" t then fmtMany t [("event_type", theme)]
    else .ok t
  | none => .ok ("Design " ++ k ++ " poster")

/-- Suffix step of `poster_design` (lines 776-777): `" with <theme> theme"`
appended when `theme` is non-empty and the raw looked-up template contains no
brace. -/
def posterSuffix (theme raw : String) : Except DispatchError String → Except DispatchError String
  | .error e => .error e
  | .ok prompt =>
    if theme ≠ "" ∧ ¬ (strIn "\x7b" raw = true) then .ok (prompt ++ " with " ++ theme ++ " theme")
    else .ok prompt

/-- Instruction construction of `perspective_transform` over a table. -/
def perspective_transform (tbl : Table) (k : String) : Except DispatchError String :=
  perspectiveCase k (tmplLookupT tbl "视角转换" k)

/-- Instruction construction of `style_transform` over a table. -/
def style_transform (tbl : Table) (k : String) : Except DispatchError String :=
  styleCase k (tmplLookupT tbl "风格转换" k)

/-- Instruction construction of `environment_transform` over a table. -/
def environment_transform (tbl : Table) (k : String) : Except DispatchError String :=
  environmentCase k (tmplLookupT tbl "环境变换" k)

/-- Instruction construction of `object_transform` over a table. -/
def object_transform (tbl : Table) (k v : String) : Except DispatchError String :=
  objectCase k v (tmplLookupT tbl "对象变换" k)

/-- Instruction construction of `generate_avatar` over a table. -/
def generate_avatar (tbl : Table) (k desc : String) : Except DispatchError String :=
  avatarCase k desc (tmplLookupT tbl "虚拟形象生成" k)

/-- Instruction construction of `ai_remove` over a table. -/
def ai_remove (tbl : Table) (k target : String) : Except DispatchError String :=
  removeCase k target (tmplLookupT tbl "AI消除" k)

/-- Instruction construction of `ai_redraw` over a table. -/
def ai_redraw (tbl : Table) (k desc : String) : Except DispatchError String :=
  redrawCase k desc (tmplLookupT tbl "AI重绘" k)

/-- Instruction construction of `virtual_scene` over a table. -/
def virtual_scene (tbl : Table) (k elems : String) : Except DispatchError String :=
  sceneSuffix elems ((tmplLookupT tbl "虚拟场景" k).getD "")
    (sceneBase k elems (tmplLookupT tbl "虚拟场景" k))

/-- Instruction construction of `outfit_simulation` over a table. -/
def outfit_simulation (tbl : Table) (k details : String) : Except DispatchError String :=
  outfitCase k details (tmplLookupT tbl "穿搭模拟" k)

/-- Instruction construction of `text_design` over a table. -/
def text_design (tbl : Table) (k content font : String) : Except DispatchError String :=
  textCase k content font (tmplLookupT tbl "文字设计" k)

/-- Instruction construction of `poster_design` over a table. -/
def poster_design (tbl : Table) (k theme : String) : Except DispatchError String :=
  posterSuffix theme ((tmplLookupT tbl "海报编辑" k).getD "")
    (posterBase k theme (tmplLookupT tbl "海报编辑" k))

/-- The spec's `resolve(category, key, parameters)` over an explicit table:
dispatch to the feature builder owning the category, `UnknownCategory` outside
the enumerated set.  `value` is the single free-text parameter of the
builders; `fontStyle` is the extra parameter of `text_design` (Python default
`"modern"`). -/
def resolveT (tbl : Table) (category key value fontStyle : String) :
    Except DispatchError String :=
  if category = "视角转换" then perspective_transform tbl key
  else if category = "风格转换" then style_transform tbl key
  else if category = "环境变换" then environment_transform tbl key
  else if category = "对象变换" then object_transform tbl key value
  else if category = "虚拟形象生成" then generate_avatar tbl key value
  else if category = "AI消除" then ai_remove tbl key value
  else if category = "AI重绘" then ai_redraw tbl key value
  else if category = "虚拟场景" then virtual_scene tbl key value
  else if category = "穿搭模拟" then outfit_simulation tbl key value
  else if category = "文字设计" then text_design tbl key value fontStyle
  else if category = "海报编辑" then poster_design tbl key value
  else .error .unknownCategory

/-- `resolve` over the source's table. -/
def resolve (category key value fontStyle : String) : Except DispatchError String :=
  resolveT editing_templates category key value fontStyle

/-- State-passing form of one `resolve` call: the Python methods read
`self.editing_templates` and contain no assignment to it, so the post-state
table is the pre-state table. -/
def resolveS (tbl : Table) (category key value fontStyle : String) :
    Except DispatchError String × Table :=
  (resolveT tbl category key value fontStyle, tbl)

/-- `get_available_templates` (lines 785-790): category to its key list, both
in table insertion order. -/
def get_available_templates : List (String × List String) :=
  editing_templates.map (fun c => (c.1, c.2.map Prod.fst))

/-- The spec's `listOperations(category)`: the key list of one category from
`get_available_templates`. -/
def listOperations (cat : String) : List String :=
  match List.find? (fun c => c.1 == cat) get_available_templates with
  | none => []
  | some c => c.2

/-! Generic lemmas about the embedding. -/

/-- Appending strings concatenates their character lists. -/
theorem data_append (a b : String) : (a ++ b).data = a.data ++ b.data := rfl

/-- A character list produced by `fmtAux` never contains an opening brace when
none of the supplied values does: literal characters are copied only when they
are not `\x7b`, field names are consumed, and values are spliced verbatim. -/
theorem fmtAux_braceFree {p : String → Option String}
    (hp : ∀ n u, p n = some u → '{' ∉ u.data) :
    ∀ fuel l out, fmtAux p fuel l = some out → '{' ∉ out := by
  intro fuel
  induction fuel with
  | zero => intro l out h; exact absurd h (by simp [fmtAux])
  | succ fuel ih =>
    intro l out h
    cases l with
    | nil =>
      simp only [fmtAux] at h
      cases h
      simp
    | cons c rest =>
      simp only [fmtAux] at h
      split at h
      · rename_i hc
        split at h
        · cases h
        · rename_i n r hsb
          split at h
          · cases h
          · rename_i v hpn
            split at h
            · cases h
            · rename_i out2 hrec
              cases h
              intro hmem
              rcases List.mem_append.mp hmem with hm | hm
              · exact hp _ _ hpn hm
              · exact ih _ _ hrec hm
      · rename_i hc
        split at h
        · cases h
        · rename_i out2 hrec
          cases h
          intro hmem
          rcases List.mem_cons.mp hmem with hm | hm
          · exact hc hm.symm
          · exact ih _ _ hrec hm

/-- A string produced by `pyFormat` has no opening brace left when no supplied
value has one. -/
theorem pyFormat_braceFree {t : String} {p : String → Option String} {s : String}
    (h : pyFormat t p = some s) (hp : ∀ n u, p n = some u → '{' ∉ u.data) :
    '{' ∉ s.data := by
  unfold pyFormat at h
  cases hf : fmtAux p (t.data.length + 1) t.data with
  | none => rw [hf] at h; cases h
  | some l =>
    rw [hf] at h
    cases h
    exact fmtAux_braceFree hp _ _ _ hf

/-- Values of a keyword mapping whose entries all carry one of two strings are
brace-free when both strings are. -/
theorem pmap_braceFree_pair {l : List (String × String)} {a b : String}
    (hl : ∀ x ∈ l, x.2 = a ∨ x.2 = b)
    (ha : '{' ∉ a.data) (hb : '{' ∉ b.data) :
    ∀ n u, pmap l n = some u → '{' ∉ u.data := by
  intro n u h
  unfold pmap at h
  cases hf : List.find? (fun x => x.1 == n) l with
  | none => rw [hf] at h; cases h
  | some e =>
    rw [hf] at h
    cases h
    rcases hl e (List.mem_of_find?_eq_some hf) with he | he
    · rw [he]; exact ha
    · rw [he]; exact hb

/-- Successful, brace-free outcome of a `format` call site. -/
theorem fmtMany_ok_bf (t : String) (l : List (String × String))
    (hs : (pyFormat t (pmap l)).isSome = true)
    (hl : ∀ n u, pmap l n = some u → '{' ∉ u.data) :
    ∃ s, fmtMany t l = .ok s ∧ '{' ∉ s.data := by
  obtain ⟨s, h⟩ := Option.isSome_iff_exists.mp hs
  exact ⟨s, congrArg fmtCase h, pyFormat_braceFree h hl⟩

/-- Successful outcome of a `format` call site. -/
theorem fmtMany_ok (t : String) (l : List (String × String))
    (hs : (pyFormat t (pmap l)).isSome = true) :
    ∃ s, fmtMany t l = .ok s := by
  obtain ⟨s, h⟩ := Option.isSome_iff_exists.mp hs
  exact ⟨s, congrArg fmtCase h⟩

/-- Appending two brace-free strings is brace-free. -/
theorem braceFree_append {a b : String} (ha : '{' ∉ a.data) (hb : '{' ∉ b.data) :
    '{' ∉ (a ++ b).data := by
  rw [data_append]
  intro hmem
  rcases List.mem_append.mp hmem with hm | hm
  · exact ha hm
  · exact hb hm

/-- A template found by the lookup is among the values of its category. -/
theorem tmplLookup_mem_values {cat k t : String} (h : tmplLookup cat k = some t) :
    t ∈ (categoryTemplates cat).map Prod.snd := by
  unfold tmplLookup tmplLookupT at h
  cases hf : List.find? (fun e => e.1 == k) (categoryTemplatesT editing_templates cat) with
  | none => rw [hf] at h; cases h
  | some e =>
    rw [hf] at h
    cases h
    exact List.mem_map_of_mem Prod.snd (List.mem_of_find?_eq_some hf)

/-- A successful lookup forces the category to be one of the table's. -/
theorem tmplLookup_cat_mem {cat k t : String} (h : tmplLookup cat k = some t) :
    cat ∈ categoryNames := by
  unfold tmplLookup tmplLookupT categoryTemplatesT at h
  cases hf : List.find? (fun c => c.1 == cat) editing_templates with
  | none => rw [hf] at h; cases h
  | some c =>
    have hm := List.mem_of_find?_eq_some hf
    have hp := List.find?_some hf
    have hc : c.1 = cat := by simpa using hp
    exact hc ▸ List.mem_map_of_mem Prod.fst hm

/-- Keys with a successful lookup in an association list are its first
components. -/
theorem assoc_isSome_iff_mem {l : List (String × String)} {k : String} :
    (Option.map Prod.snd (List.find? (fun e => e.1 == k) l)).isSome = true ↔
      k ∈ l.map Prod.fst := by
  induction l with
  | nil => simp
  | cons e rest ih =>
    by_cases h : e.1 = k
    · rw [List.find?_cons_of_pos _ (by simpa using h)]
      simp [h]
    · rw [List.find?_cons_of_neg _ (by simpa using h)]
      rw [List.map_cons, List.mem_cons, ih]
      constructor
      · exact Or.inr
      · rintro (h1 | hm)
        · exact absurd h1.symm h
        · exact hm

/-- Suffix step of `virtual_scene` when the raw template has a brace. -/
theorem sceneSuffix_of_brace {elems raw s : String} (hb : strIn "\x7b" raw = true) :
    sceneSuffix elems raw (.ok s) = .ok s := by
  simp only [sceneSuffix]
  rw [if_neg]
  rintro ⟨-, h2⟩
  exact h2 hb

/-- Suffix step of `virtual_scene` with empty free text. -/
theorem sceneSuffix_of_empty {raw s : String} :
    sceneSuffix "" raw (.ok s) = .ok s := by
  simp only [sceneSuffix]
  rw [if_neg]
  rintro ⟨h1, -⟩
  exact h1 rfl

/-- Suffix step of `virtual_scene` when it concatenates. -/
theorem sceneSuffix_app {elems raw s : String} (hne : elems ≠ "")
    (hb : strIn "\x7b" raw = false) :
    sceneSuffix elems raw (.ok s) = .ok (s ++ " with " ++ elems) := by
  simp only [sceneSuffix]
  rw [if_pos ⟨hne, by simp [hb]⟩]

/-- Suffix step of `poster_design` when the raw template has a brace. -/
theorem posterSuffix_of_brace {theme raw s : String} (hb : strIn "\x7b" raw = true) :
    posterSuffix theme raw (.ok s) = .ok s := by
  simp only [posterSuffix]
  rw [if_neg]
  rintro ⟨-, h2⟩
  exact h2 hb

/-- Suffix step of `poster_design` with empty theme. -/
theorem posterSuffix_of_empty {raw s : String} :
    posterSuffix "" raw (.ok s) = .ok s := by
  simp only [posterSuffix]
  rw [if_neg]
  rintro ⟨h1, -⟩
  exact h1 rfl

/-- Suffix step of `poster_design` when it concatenates. -/
theorem posterSuffix_app {theme raw s : String} (hne : theme ≠ "")
    (hb : strIn "\x7b" raw = false) :
    posterSuffix theme raw (.ok s) = .ok (s ++ " with " ++ theme ++ " theme") := by
  simp only [posterSuffix]
  rw [if_pos ⟨hne, by simp [hb]⟩]

/-- Branches of `generate_avatar` with non-empty description. -/
theorem avatarCase_ne {k desc : String} (o : Option String) (hd : desc ≠ "") :
    avatarCase k desc o = .ok (o.getD ("Generate " ++ k ++ " avatar") ++ ", " ++ desc) := by
  simp only [avatarCase]
  rw [if_neg hd]

/-- Branches of `generate_avatar` with empty description. -/
theorem avatarCase_empty {k : String} (o : Option String) :
    avatarCase k "" o = .ok (o.getD ("Generate " ++ k ++ " avatar")) := rfl

/-- Suffix step of `virtual_scene` preserves success. -/
theorem sceneSuffix_exists (elems raw : String) (r : Except DispatchError String)
    (hr : ∃ s, r = .ok s) : ∃ u, sceneSuffix elems raw r = .ok u := by
  obtain ⟨s, rfl⟩ := hr
  simp only [sceneSuffix]
  split
  · exact ⟨_, rfl⟩
  · exact ⟨_, rfl⟩

/-- Suffix step of `poster_design` preserves success. -/
theorem posterSuffix_exists (theme raw : String) (r : Except DispatchError String)
    (hr : ∃ s, r = .ok s) : ∃ u, posterSuffix theme raw r = .ok u := by
  obtain ⟨s, rfl⟩ := hr
  simp only [posterSuffix]
  split
  · exact ⟨_, rfl⟩
  · exact ⟨_, rfl⟩

/-- Membership in the category list, spelled out. -/
theorem mem_categoryNames_iff {cat : String} :
    cat ∈ categoryNames ↔
      cat = "视角转换" ∨ cat = "风格转换" ∨ cat = "环境变换" ∨ cat = "对象变换" ∨
      cat = "虚拟形象生成" ∨ cat = "AI消除" ∨ cat = "AI重绘" ∨ cat = "虚拟场景" ∨
      cat = "穿搭模拟" ∨ cat = "文字设计" ∨ cat = "海报编辑" := by
  simp [categoryNames, editing_templates]

/-- Every category of the table resolves every key and parameters to a string:
direct template hits format successfully (each call site binds all field names
its category's templates use), misses take the fallback path. -/
theorem resolve_ok_of_mem {cat : String} (hc : cat ∈ categoryNames) (k v fs : String) :
    ∃ s, resolve cat k v fs = .ok s := by
  rcases mem_categoryNames_iff.mp hc with rfl | rfl | rfl | rfl | rfl | rfl | rfl | rfl | rfl | rfl | rfl
  · show ∃ s, perspectiveCase k (tmplLookup "视角转换" k) = Except.ok s
    cases tmplLookup "视角转换" k <;> exact ⟨_, rfl⟩
  · show ∃ s, styleCase k (tmplLookup "风格转换" k) = Except.ok s
    cases tmplLookup "风格转换" k <;> exact ⟨_, rfl⟩
  · show ∃ s, environmentCase k (tmplLookup "环境变换" k) = Except.ok s
    cases tmplLookup "环境变换" k <;> exact ⟨_, rfl⟩
  · show ∃ s, objectCase k v (tmplLookup "对象变换" k) = Except.ok s
    cases hl : tmplLookup "对象变换" k with
    | none => exact ⟨_, rfl⟩
    | some t =>
      have hm := tmplLookup_mem_values hl
      fin_cases hm <;> exact ⟨_, rfl⟩
  · show ∃ s, avatarCase k v (tmplLookup "虚拟形象生成" k) = Except.ok s
    by_cases hd : v = ""
    · subst hd; exact ⟨_, avatarCase_empty _⟩
    · exact ⟨_, avatarCase_ne _ hd⟩
  · show ∃ s, removeCase k v (tmplLookup "AI消除" k) = Except.ok s
    cases hl : tmplLookup "AI消除" k with
    | none => exact ⟨_, rfl⟩
    | some t =>
      have hm := tmplLookup_mem_values hl
      fin_cases hm <;> exact ⟨_, rfl⟩
  · show ∃ s, redrawCase k v (tmplLookup "AI重绘" k) = Except.ok s
    cases hl : tmplLookup "AI重绘" k with
    | none => exact ⟨_, rfl⟩
    | some t =>
      have hm := tmplLookup_mem_values hl
      fin_cases hm <;> exact ⟨_, rfl⟩
  · show ∃ s, sceneSuffix v ((tmplLookup "虚拟场景" k).getD "")
        (sceneBase k v (tmplLookup "虚拟场景" k)) = Except.ok s
    cases hl : tmplLookup "虚拟场景" k with
    | none => exact sceneSuffix_exists _ _ _ ⟨_, rfl⟩
    | some t =>
      have hm := tmplLookup_mem_values hl
      fin_cases hm <;> exact sceneSuffix_exists _ _ _ ⟨_, rfl⟩
  · show ∃ s, outfitCase k v (tmplLookup "穿搭模拟" k) = Except.ok s
    cases hl : tmplLookup "穿搭模拟" k with
    | none => exact ⟨_, rfl⟩
    | some t =>
      have hm := tmplLookup_mem_values hl
      fin_cases hm <;> exact ⟨_, rfl⟩
  · show ∃ s, textCase k v fs (tmplLookup "文字设计" k) = Except.ok s
    cases hl : tmplLookup "文字设计" k with
    | none => exact ⟨_, rfl⟩
    | some t =>
      have hm := tmplLookup_mem_values hl
      fin_cases hm <;> exact ⟨_, rfl⟩
  · show ∃ s, posterSuffix v ((tmplLookup "海报编辑" k).getD "")
        (posterBase k v (tmplLookup "海报编辑" k)) = Except.ok s
    cases hl : tmplLookup "海报编辑" k with
    | none => exact posterSuffix_exists _ _ _ ⟨_, rfl⟩
    | some t =>
      have hm := tmplLookup_mem_values hl
      fin_cases hm <;> exact posterSuffix_exists _ _ _ ⟨_, rfl⟩

/-- Outside the enumerated categories, `resolve` falls through to the
`UnknownCategory` failure. -/
theorem resolve_unknown_of_not_mem {cat : String} (hc : cat ∉ categoryNames)
    (k v fs : String) : resolve cat k v fs = .error .unknownCategory := by
  rw [mem_categoryNames_iff] at hc
  push_neg at hc
  obtain ⟨h1, h2, h3, h4, h5, h6, h7, h8, h9, h10, h11⟩ := hc
  unfold resolve resolveT
  rw [if_neg h1, if_neg h2, if_neg h3, if_neg h4, if_neg h5, if_neg h6, if_neg h7,
    if_neg h8, if_neg h9, if_neg h10, if_neg h11]

/-- C2: `resolve` fails with `UnknownCategory` exactly when the category is
outside the table's enumerated set, and for any category inside the set no
choice of key or parameter values makes the instruction resolution fail:
every direct template hit formats successfully (each call site binds every
field name its category's templates use) and every miss takes the fallback
path. -/
theorem resolve_unknownCategory_iff (cat k v fs : String) :
    (resolve cat k v fs = .error .unknownCategory ↔ cat ∉ categoryNames) ∧
    (cat ∈ categoryNames → ∃ s, resolve cat k v fs = .ok s) := by
  refine ⟨⟨fun h hmem => ?_, fun hmem => resolve_unknown_of_not_mem hmem k v fs⟩,
    fun hmem => resolve_ok_of_mem hmem k v fs⟩
  obtain ⟨s, hs⟩ := resolve_ok_of_mem hmem k v fs
  rw [hs] at h
  cases h

/-- Witness for C2 at concrete inputs: a bogus category fails with
`unknownCategory`, and a valid category with an unknown key still resolves. -/
theorem resolve_unknownCategory_iff_witness :
    resolve "bogus-category" "x" "" "" = .error .unknownCategory ∧
    ∃ s, resolve "视角转换" "x" "" "" = .ok s :=
  ⟨(resolve_unknownCategory_iff "bogus-category" "x" "" "").1.mpr (by decide),
   (resolve_unknownCategory_iff "视角转换" "x" "" "").2 (by decide)⟩

/-- C4: `listOperations` is the category's key list in table insertion order,
and its members are exactly the keys for which the resolver's template lookup
finds a direct match. -/
theorem listOperations_exact (cat : String) :
    listOperations cat = (categoryTemplates cat).map Prod.fst ∧
    ∀ k, k ∈ listOperations cat ↔ (tmplLookup cat k).isSome = true := by
  have hmap : List.find? (fun c => c.1 == cat) get_available_templates
      = Option.map (fun c : String × List (String × String) => (c.1, c.2.map Prod.fst))
        (List.find? (fun c => c.1 == cat) editing_templates) := by
    unfold get_available_templates
    rw [List.find?_map]
    rfl
  have h1 : listOperations cat = (categoryTemplates cat).map Prod.fst := by
    unfold listOperations categoryTemplates categoryTemplatesT
    rw [hmap]
    cases List.find? (fun c => c.1 == cat) editing_templates <;> rfl
  refine ⟨h1, fun k => ?_⟩
  rw [h1]
  exact assoc_isSome_iff_mem.symm

/-- C6 counterexample: the 移除对象 template carries the placeholder named
`object`, the Python call-site default supplies no value for it (empty
string), and resolution succeeds with the placeholder silently replaced by
the empty string — no missing-placeholder failure is surfaced. -/
theorem missing_value_silently_defaulted :
    tmplLookup "AI消除" "移除对象" = some "Remove the {object} from the image completely" ∧
    resolve "AI消除" "移除对象" "" "modern" = .ok "Remove the  from the image completely" :=
  ⟨rfl, rfl⟩

/-- C6 amended: the code has no missing-placeholder failure at all: every
resolution either fails with `unknownCategory` or returns an instruction
string, a placeholder with no supplied value being silently filled with the
caller-side empty default. -/
theorem resolve_never_formatKeyError (cat k v fs : String) :
    resolve cat k v fs = .error .unknownCategory ∨ ∃ s, resolve cat k v fs = .ok s := by
  by_cases hc : cat ∈ categoryNames
  · exact Or.inr (resolve_ok_of_mem hc k v fs)
  · exact Or.inl (resolve_unknown_of_not_mem hc k v fs)

/-- C7: `resolve` is pure and deterministic: the state-passing form returns
the template table unchanged (the Python methods contain no assignment to
`self.editing_templates`), and a repeated call on the post-state table with
identical arguments returns the identical instruction. -/
theorem resolve_pure (tbl : Table) (cat k v fs : String) :
    (resolveS tbl cat k v fs).2 = tbl ∧
    (resolveS ((resolveS tbl cat k v fs).2) cat k v fs).1 = (resolveS tbl cat k v fs).1 :=
  ⟨rfl, rfl⟩

/-- C8: resolving the perspective category at key 从正面看 with empty
parameters returns exactly the front-view template. -/
theorem resolve_front_view_example :
    resolve "视角转换" "从正面看" "" "modern" =
      .ok "Change the view to front view, clear and detailed" := rfl

/-- C9: in the AI-redraw and outfit categories, every placeholder of a
matched template — whatever its name — receives the one caller-supplied
free-text value: the resolution equals a single format pass binding every
field name to that same value, so distinct placeholders cannot receive
distinct values through these operations. -/
theorem redraw_outfit_single_value {cat : String} (k t d fs : String)
    (hcat : cat = "AI重绘" ∨ cat = "穿搭模拟")
    (ht : tmplLookup cat k = some t)
    (hph : strIn "\x7b" t = true) :
    resolve cat k d fs = fmtCase (pyFormat t (fun _ => some d)) := by
  rcases hcat with rfl | rfl
  · have hm := tmplLookup_mem_values ht
    show redrawCase k d (tmplLookup "AI重绘" k) = fmtCase (pyFormat t (fun _ => some d))
    rw [ht]
    fin_cases hm
    · rfl
    · rfl
    · rfl
    · rfl
    · rfl
    · exact absurd hph (by decide)
  · have hm := tmplLookup_mem_values ht
    show outfitCase k d (tmplLookup "穿搭模拟" k) = fmtCase (pyFormat t (fun _ => some d))
    rw [ht]
    fin_cases hm
    · rfl
    · rfl
    · rfl
    · rfl
    · rfl
    · rfl

/-- Witness for C9 at a concrete outfit key. -/
theorem redraw_outfit_single_value_witness :
    resolve "穿搭模拟" "换装试衣" "denim jacket" "modern" =
      fmtCase (pyFormat "Change clothing to {clothing_style}" (fun _ => some "denim jacket")) :=
  redraw_outfit_single_value "换装试衣" "Change clothing to {clothing_style}"
    "denim jacket" "modern" (Or.inr rfl) rfl rfl

/-- Suffix step of `virtual_scene` preserves success and brace-freeness when
the raw template has a brace. -/
theorem sceneSuffix_bf {elems raw : String} {r : Except DispatchError String}
    (hr : ∃ s, r = .ok s ∧ '{' ∉ s.data) (hb : strIn "\x7b" raw = true) :
    ∃ u, sceneSuffix elems raw r = .ok u ∧ '{' ∉ u.data := by
  obtain ⟨s, rfl, hbf⟩ := hr
  exact ⟨s, sceneSuffix_of_brace hb, hbf⟩

/-- Suffix step of `poster_design` preserves success and brace-freeness when
the raw template has a brace. -/
theorem posterSuffix_bf {theme raw : String} {r : Except DispatchError String}
    (hr : ∃ s, r = .ok s ∧ '{' ∉ s.data) (hb : strIn "\x7b" raw = true) :
    ∃ u, posterSuffix theme raw r = .ok u ∧ '{' ∉ u.data := by
  obtain ⟨s, rfl, hbf⟩ := hr
  exact ⟨s, posterSuffix_of_brace hb, hbf⟩

/-- C3: for every `(category, key)` pair present in the table, resolution
with a complete parameters mapping (the call sites bind every field name the
category's templates use; the supplied free-text values are assumed free of
the placeholder-opening character) returns a string with no opening brace
left, hence no unresolved placeholder syntax from the template. -/
theorem resolve_no_unresolved_placeholders {cat k t : String} (v fs : String)
    (ht : tmplLookup cat k = some t)
    (hv : '{' ∉ v.data) (hf : '{' ∉ fs.data) :
    ∃ s, resolve cat k v fs = .ok s ∧ '{' ∉ s.data := by
  have hc := tmplLookup_cat_mem ht
  rcases mem_categoryNames_iff.mp hc with rfl | rfl | rfl | rfl | rfl | rfl | rfl | rfl | rfl | rfl | rfl
  · have hm := tmplLookup_mem_values ht
    show ∃ s, perspectiveCase k (tmplLookup "视角转换" k) = Except.ok s ∧ '{' ∉ s.data
    rw [ht]
    fin_cases hm <;> exact ⟨_, rfl, by decide⟩
  · have hm := tmplLookup_mem_values ht
    show ∃ s, styleCase k (tmplLookup "风格转换" k) = Except.ok s ∧ '{' ∉ s.data
    rw [ht]
    fin_cases hm <;> exact ⟨_, rfl, by decide⟩
  · have hm := tmplLookup_mem_values ht
    show ∃ s, environmentCase k (tmplLookup "环境变换" k) = Except.ok s ∧ '{' ∉ s.data
    rw [ht]
    fin_cases hm <;> exact ⟨_, rfl, by decide⟩
  · have hm := tmplLookup_mem_values ht
    show ∃ s, objectCase k v (tmplLookup "对象变换" k) = Except.ok s ∧ '{' ∉ s.data
    rw [ht]
    fin_cases hm
    · exact fmtMany_ok_bf "Change the color to {color}"
        [("color", v)] rfl
        (pmap_braceFree_pair (by intro x hx; fin_cases hx <;> simp) hv hv)
    · exact fmtMany_ok_bf "Change the material to {material}"
        [("material", v)] rfl
        (pmap_braceFree_pair (by intro x hx; fin_cases hx <;> simp) hv hv)
    · exact fmtMany_ok_bf "Change the size to {size}"
        [("size", v)] rfl
        (pmap_braceFree_pair (by intro x hx; fin_cases hx <;> simp) hv hv)
    · exact fmtMany_ok_bf "Add decorative elements like {decoration}"
        [("decoration", v)] rfl
        (pmap_braceFree_pair (by intro x hx; fin_cases hx <;> simp) hv hv)
    · exact fmtMany_ok_bf "Change the facial expression to {expression}"
        [("expression", v)] rfl
        (pmap_braceFree_pair (by intro x hx; fin_cases hx <;> simp) hv hv)
    · exact fmtMany_ok_bf "Change the pose to {pose}"
        [("pose", v)] rfl
        (pmap_braceFree_pair (by intro x hx; fin_cases hx <;> simp) hv hv)
    · exact fmtMany_ok_bf "Change the clothing to {clothing}"
        [("clothing", v)] rfl
        (pmap_braceFree_pair (by intro x hx; fin_cases hx <;> simp) hv hv)
  · have hm := tmplLookup_mem_values ht
    show ∃ s, avatarCase k v (tmplLookup "虚拟形象生成" k) = Except.ok s ∧ '{' ∉ s.data
    rw [ht]
    by_cases hd : v = ""
    · subst hd
      fin_cases hm <;>
        exact ⟨_, avatarCase_empty _, by rw [Option.getD_some]; decide⟩
    · fin_cases hm <;>
        exact ⟨_, avatarCase_ne _ hd,
          braceFree_append (braceFree_append (by rw [Option.getD_some]; decide) (by decide)) hv⟩
  · have hm := tmplLookup_mem_values ht
    show ∃ s, removeCase k v (tmplLookup "AI消除" k) = Except.ok s ∧ '{' ∉ s.data
    rw [ht]
    fin_cases hm
    · exact fmtMany_ok_bf "Remove the {object} from the image completely"
        [("object", v)] rfl
        (pmap_braceFree_pair (by intro x hx; fin_cases hx <;> simp) hv hv)
    · exact ⟨_, rfl, by decide⟩
    · exact ⟨_, rfl, by decide⟩
    · exact ⟨_, rfl, by decide⟩
    · exact ⟨_, rfl, by decide⟩
    · exact ⟨_, rfl, by decide⟩
  · have hm := tmplLookup_mem_values ht
    show ∃ s, redrawCase k v (tmplLookup "AI重绘" k) = Except.ok s ∧ '{' ∉ s.data
    rw [ht]
    fin_cases hm
    · exact fmtMany_ok_bf "Redraw the selected area with {description}"
        [("description", v), ("background", v), ("features", v), ("new_object", v), ("style", v)] rfl
        (pmap_braceFree_pair (by intro x hx; fin_cases hx <;> simp) hv hv)
    · exact fmtMany_ok_bf "Redraw the background as {background}"
        [("description", v), ("background", v), ("features", v), ("new_object", v), ("style", v)] rfl
        (pmap_braceFree_pair (by intro x hx; fin_cases hx <;> simp) hv hv)
    · exact fmtMany_ok_bf "Redraw the person with {features}"
        [("description", v), ("background", v), ("features", v), ("new_object", v), ("style", v)] rfl
        (pmap_braceFree_pair (by intro x hx; fin_cases hx <;> simp) hv hv)
    · exact fmtMany_ok_bf "Redraw the object as {new_object}"
        [("description", v), ("background", v), ("features", v), ("new_object", v), ("style", v)] rfl
        (pmap_braceFree_pair (by intro x hx; fin_cases hx <;> simp) hv hv)
    · exact fmtMany_ok_bf "Completely redraw the image in {style} style"
        [("description", v), ("background", v), ("features", v), ("new_object", v), ("style", v)] rfl
        (pmap_braceFree_pair (by intro x hx; fin_cases hx <;> simp) hv hv)
    · exact ⟨_, rfl, braceFree_append (by decide) hv⟩
  · have hm := tmplLookup_mem_values ht
    show ∃ s, sceneSuffix v ((tmplLookup "虚拟场景" k).getD "")
        (sceneBase k v (tmplLookup "虚拟场景" k)) = Except.ok s ∧ '{' ∉ s.data
    rw [ht]
    fin_cases hm
    · by_cases hd : v = ""
      · subst hd; exact ⟨_, sceneSuffix_of_empty, by decide⟩
      · exact ⟨_, sceneSuffix_app hd rfl,
          braceFree_append (braceFree_append (by decide) (by decide)) hv⟩
    · by_cases hd : v = ""
      · subst hd; exact ⟨_, sceneSuffix_of_empty, by decide⟩
      · exact ⟨_, sceneSuffix_app hd rfl,
          braceFree_append (braceFree_append (by decide) (by decide)) hv⟩
    · exact sceneSuffix_bf (fmtMany_ok_bf "Transform into historical setting of {period}"
        [("period", v)] rfl
        (pmap_braceFree_pair (by intro x hx; fin_cases hx <;> simp) hv hv)) (by rfl)
    · exact sceneSuffix_bf (fmtMany_ok_bf "Create natural landscape scene with {elements}"
        [("elements", v)] rfl
        (pmap_braceFree_pair (by intro x hx; fin_cases hx <;> simp) hv hv)) (by rfl)
    · by_cases hd : v = ""
      · subst hd; exact ⟨_, sceneSuffix_of_empty, by decide⟩
      · exact ⟨_, sceneSuffix_app hd rfl,
          braceFree_append (braceFree_append (by decide) (by decide)) hv⟩
    · exact sceneSuffix_bf (fmtMany_ok_bf "Create interior space design for {room_type}"
        [("room_type", v)] rfl
        (pmap_braceFree_pair (by intro x hx; fin_cases hx <;> simp) hv hv)) (by rfl)
  · have hm := tmplLookup_mem_values ht
    show ∃ s, outfitCase k v (tmplLookup "穿搭模拟" k) = Except.ok s ∧ '{' ∉ s.data
    rw [ht]
    fin_cases hm
    · exact fmtMany_ok_bf "Change clothing to {clothing_style}"
        [("clothing_style", v), ("accessories", v), ("hairstyle", v), ("makeup_style", v), ("color_theme", v), ("season", v)] rfl
        (pmap_braceFree_pair (by intro x hx; fin_cases hx <;> simp) hv hv)
    · exact fmtMany_ok_bf "Add accessories like {accessories}"
        [("clothing_style", v), ("accessories", v), ("hairstyle", v), ("makeup_style", v), ("color_theme", v), ("season", v)] rfl
        (pmap_braceFree_pair (by intro x hx; fin_cases hx <;> simp) hv hv)
    · exact fmtMany_ok_bf "Change hairstyle to {hairstyle}"
        [("clothing_style", v), ("accessories", v), ("hairstyle", v), ("makeup_style", v), ("color_theme", v), ("season", v)] rfl
        (pmap_braceFree_pair (by intro x hx; fin_cases hx <;> simp) hv hv)
    · exact fmtMany_ok_bf "Adjust makeup style to {makeup_style}"
        [("clothing_style", v), ("accessories", v), ("hairstyle", v), ("makeup_style", v), ("color_theme", v), ("season", v)] rfl
        (pmap_braceFree_pair (by intro x hx; fin_cases hx <;> simp) hv hv)
    · exact fmtMany_ok_bf "Change color scheme to {color_theme}"
        [("clothing_style", v), ("accessories", v), ("hairstyle", v), ("makeup_style", v), ("color_theme", v), ("season", v)] rfl
        (pmap_braceFree_pair (by intro x hx; fin_cases hx <;> simp) hv hv)
    · exact fmtMany_ok_bf "Change outfit for {season} season"
        [("clothing_style", v), ("accessories", v), ("hairstyle", v), ("makeup_style", v), ("color_theme", v), ("season", v)] rfl
        (pmap_braceFree_pair (by intro x hx; fin_cases hx <;> simp) hv hv)
  · have hm := tmplLookup_mem_values ht
    show ∃ s, textCase k v fs (tmplLookup "文字设计" k) = Except.ok s ∧ '{' ∉ s.data
    rw [ht]
    fin_cases hm
    · exact fmtMany_ok_bf "Add artistic text \x27{text}\x27 with {font_style} style"
        [("text", v), ("font_style", fs), ("title", v), ("logo_text", v), ("calligraphy_style", fs)] rfl
        (pmap_braceFree_pair (by intro x hx; fin_cases hx <;> simp) hv hf)
    · exact fmtMany_ok_bf "Design title text \x27{title}\x27 with professional layout"
        [("text", v), ("font_style", fs), ("title", v), ("logo_text", v), ("calligraphy_style", fs)] rfl
        (pmap_braceFree_pair (by intro x hx; fin_cases hx <;> simp) hv hf)
    · exact fmtMany_ok_bf "Create logo design with text \x27{logo_text}\x27"
        [("text", v), ("font_style", fs), ("title", v), ("logo_text", v), ("calligraphy_style", fs)] rfl
        (pmap_braceFree_pair (by intro x hx; fin_cases hx <;> simp) hv hf)
    · exact fmtMany_ok_bf "Add calligraphy text \x27{text}\x27 in {calligraphy_style}"
        [("text", v), ("font_style", fs), ("title", v), ("logo_text", v), ("calligraphy_style", fs)] rfl
        (pmap_braceFree_pair (by intro x hx; fin_cases hx <;> simp) hv hf)
    · exact fmtMany_ok_bf "Create 3D text effect for \x27{text}\x27"
        [("text", v), ("font_style", fs), ("title", v), ("logo_text", v), ("calligraphy_style", fs)] rfl
        (pmap_braceFree_pair (by intro x hx; fin_cases hx <;> simp) hv hf)
    · exact fmtMany_ok_bf "Add neon light text effect for \x27{text}\x27"
        [("text", v), ("font_style", fs), ("title", v), ("logo_text", v), ("calligraphy_style", fs)] rfl
        (pmap_braceFree_pair (by intro x hx; fin_cases hx <;> simp) hv hf)
  · have hm := tmplLookup_mem_values ht
    show ∃ s, posterSuffix v ((tmplLookup "海报编辑" k).getD "")
        (posterBase k v (tmplLookup "海报编辑" k)) = Except.ok s ∧ '{' ∉ s.data
    rw [ht]
    fin_cases hm
    · exact posterSuffix_bf (fmtMany_ok_bf "Design movie poster style with {theme}"
        [("theme", v)] rfl
        (pmap_braceFree_pair (by intro x hx; fin_cases hx <;> simp) hv hv)) (by rfl)
    · by_cases hd : v = ""
      · subst hd; exact ⟨_, posterSuffix_of_empty, by decide⟩
      · exact ⟨_, posterSuffix_app hd rfl,
          braceFree_append (braceFree_append (braceFree_append (by decide) (by decide)) hv)
            (by decide)⟩
    · exact posterSuffix_bf (fmtMany_ok_bf "Design event poster for {event_type}"
        [("event_type", v)] rfl
        (pmap_braceFree_pair (by intro x hx; fin_cases hx <;> simp) hv hv)) (by rfl)
    · by_cases hd : v = ""
      · subst hd; exact ⟨_, posterSuffix_of_empty, by decide⟩
      · exact ⟨_, posterSuffix_app hd rfl,
          braceFree_append (braceFree_append (braceFree_append (by decide) (by decide)) hv)
            (by decide)⟩
    · by_cases hd : v = ""
      · subst hd; exact ⟨_, posterSuffix_of_empty, by decide⟩
      · exact ⟨_, posterSuffix_app hd rfl,
          braceFree_append (braceFree_append (braceFree_append (by decide) (by decide)) hv)
            (by decide)⟩
    · by_cases hd : v = ""
      · subst hd; exact ⟨_, posterSuffix_of_empty, by decide⟩
      · exact ⟨_, posterSuffix_app hd rfl,
          braceFree_append (braceFree_append (braceFree_append (by decide) (by decide)) hv)
            (by decide)⟩

/-- Witness for C3 at a concrete table entry with a placeholder. -/
theorem resolve_no_unresolved_placeholders_witness :
    ∃ s, resolve "对象变换" "改变颜色" "purple" "modern" = .ok s ∧ '{' ∉ s.data :=
  resolve_no_unresolved_placeholders "purple" "modern" rfl (by decide) (by decide)

/-- Packaging of the fallback shape: a string whose characters are a
non-empty prefix, then the key, then a suffix, is non-empty and mentions the
key. -/
theorem shape_intro {k : String} (pre suf : List Char) {s : String}
    (h : s.data = pre ++ k.data ++ suf) (hpre : pre ≠ []) :
    s ≠ "" ∧ ∃ p q : List Char, s.data = p ++ k.data ++ q ∧ p ≠ [] := by
  refine ⟨?_, pre, suf, h, hpre⟩
  intro he
  rw [he] at h
  have h2 : ([] : List Char) = pre ++ k.data ++ suf := h
  cases pre with
  | nil => exact hpre rfl
  | cons a l => simp at h2

/-- C1 counterexample: for the valid avatar category and a key absent from
its table, the synthesized fallback is "Generate 机器人 avatar" — it mentions
the key but contains no " to " at all, so it does not have the claimed shape
"<generic-verb-for-category> <key> to <value-or-key>". -/
theorem fallback_shape_counterexample :
    tmplLookup "虚拟形象生成" "机器人" = none ∧
    resolve "虚拟形象生成" "机器人" "" "modern" = .ok "Generate 机器人 avatar" ∧
    strIn " to " "Generate 机器人 avatar" = false :=
  ⟨rfl, rfl, rfl⟩

/-- C1 amended: for every valid category and every key absent from its table,
`resolve` returns without failing a non-empty synthesized fallback string
that mentions the key — a category-specific verb phrase around the key, only
some categories using the shape "<verb> <key> to <value>". -/
theorem resolve_fallback_mentions_key {cat : String} (k v fs : String)
    (hc : cat ∈ categoryNames) (hk : tmplLookup cat k = none) :
    ∃ s, resolve cat k v fs = .ok s ∧ s ≠ "" ∧
      ∃ p q : List Char, s.data = p ++ k.data ++ q ∧ p ≠ [] := by
  rcases mem_categoryNames_iff.mp hc with rfl | rfl | rfl | rfl | rfl | rfl | rfl | rfl | rfl | rfl | rfl
  · show ∃ s, perspectiveCase k (tmplLookup "视角转换" k) = Except.ok s ∧ s ≠ "" ∧
        ∃ p q : List Char, s.data = p ++ k.data ++ q ∧ p ≠ []
    rw [hk]
    exact ⟨_, rfl, shape_intro "Change the perspective view to ".data ", clear and detailed".data
      (by simp [data_append, List.append_assoc]) (by decide)⟩
  · show ∃ s, styleCase k (tmplLookup "风格转换" k) = Except.ok s ∧ s ≠ "" ∧
        ∃ p q : List Char, s.data = p ++ k.data ++ q ∧ p ≠ []
    rw [hk]
    exact ⟨_, rfl, shape_intro "Convert the image to ".data " style".data
      (by simp [data_append, List.append_assoc]) (by decide)⟩
  · show ∃ s, environmentCase k (tmplLookup "环境变换" k) = Except.ok s ∧ s ≠ "" ∧
        ∃ p q : List Char, s.data = p ++ k.data ++ q ∧ p ≠ []
    rw [hk]
    exact ⟨_, rfl, shape_intro "Change the environment to ".data []
      (by simp [data_append, List.append_assoc]) (by decide)⟩
  · show ∃ s, objectCase k v (tmplLookup "对象变换" k) = Except.ok s ∧ s ≠ "" ∧
        ∃ p q : List Char, s.data = p ++ k.data ++ q ∧ p ≠ []
    rw [hk]
    exact ⟨_, rfl, shape_intro "Change the ".data (" to ".data ++ v.data)
      (by simp [data_append, List.append_assoc]) (by decide)⟩
  · show ∃ s, avatarCase k v (tmplLookup "虚拟形象生成" k) = Except.ok s ∧ s ≠ "" ∧
        ∃ p q : List Char, s.data = p ++ k.data ++ q ∧ p ≠ []
    rw [hk]
    by_cases hd : v = ""
    · subst hd
      exact ⟨_, avatarCase_empty _, shape_intro "Generate ".data " avatar".data
        (by simp [data_append, List.append_assoc, Option.getD_none]) (by decide)⟩
    · exact ⟨_, avatarCase_ne _ hd, shape_intro "Generate ".data
        (" avatar".data ++ ", ".data ++ v.data)
        (by simp [data_append, List.append_assoc, Option.getD_none]) (by decide)⟩
  · show ∃ s, removeCase k v (tmplLookup "AI消除" k) = Except.ok s ∧ s ≠ "" ∧
        ∃ p q : List Char, s.data = p ++ k.data ++ q ∧ p ≠ []
    rw [hk]
    exact ⟨_, rfl, shape_intro "Remove ".data " from the image".data
      (by simp [data_append, List.append_assoc]) (by decide)⟩
  · show ∃ s, redrawCase k v (tmplLookup "AI重绘" k) = Except.ok s ∧ s ≠ "" ∧
        ∃ p q : List Char, s.data = p ++ k.data ++ q ∧ p ≠ []
    rw [hk]
    exact ⟨_, rfl, shape_intro "Redraw ".data (" as ".data ++ v.data)
      (by simp [data_append, List.append_assoc]) (by decide)⟩
  · show ∃ s, sceneSuffix v ((tmplLookup "虚拟场景" k).getD "")
        (sceneBase k v (tmplLookup "虚拟场景" k)) = Except.ok s ∧ s ≠ "" ∧
        ∃ p q : List Char, s.data = p ++ k.data ++ q ∧ p ≠ []
    rw [hk]
    by_cases hd : v = ""
    · subst hd
      exact ⟨_, sceneSuffix_of_empty, shape_intro "Transform into ".data " scene".data
        (by simp [data_append, List.append_assoc]) (by decide)⟩
    · exact ⟨_, sceneSuffix_app hd (by rfl), shape_intro "Transform into ".data
        (" scene".data ++ " with ".data ++ v.data)
        (by simp [data_append, List.append_assoc]) (by decide)⟩
  · show ∃ s, outfitCase k v (tmplLookup "穿搭模拟" k) = Except.ok s ∧ s ≠ "" ∧
        ∃ p q : List Char, s.data = p ++ k.data ++ q ∧ p ≠ []
    rw [hk]
    exact ⟨_, rfl, shape_intro "Change ".data (" to ".data ++ v.data)
      (by simp [data_append, List.append_assoc]) (by decide)⟩
  · show ∃ s, textCase k v fs (tmplLookup "文字设计" k) = Except.ok s ∧ s ≠ "" ∧
        ∃ p q : List Char, s.data = p ++ k.data ++ q ∧ p ≠ []
    rw [hk]
    exact ⟨_, rfl, shape_intro "Add ".data
      (" text \x27".data ++ v.data ++ "\x27 with ".data ++ fs.data ++ " style".data)
      (by simp [data_append, List.append_assoc]) (by decide)⟩
  · show ∃ s, posterSuffix v ((tmplLookup "海报编辑" k).getD "")
        (posterBase k v (tmplLookup "海报编辑" k)) = Except.ok s ∧ s ≠ "" ∧
        ∃ p q : List Char, s.data = p ++ k.data ++ q ∧ p ≠ []
    rw [hk]
    by_cases hd : v = ""
    · subst hd
      exact ⟨_, posterSuffix_of_empty, shape_intro "Design ".data " poster".data
        (by simp [data_append, List.append_assoc]) (by decide)⟩
    · exact ⟨_, posterSuffix_app hd (by rfl), shape_intro "Design ".data
        (" poster".data ++ " with ".data ++ v.data ++ " theme".data)
        (by simp [data_append, List.append_assoc]) (by decide)⟩

/-- Witness for C1 at the spec's own example key, a perspective key absent
from the table. -/
theorem resolve_fallback_mentions_key_witness :
    ∃ s, resolve "视角转换" "从左上方45度俯视" "" "modern" = .ok s ∧ s ≠ "" ∧
      ∃ p q : List Char, s.data = p ++ "从左上方45度俯视".data ++ q ∧ p ≠ [] :=
  resolve_fallback_mentions_key "从左上方45度俯视" "" "modern" (by decide) rfl

/-- A match of a list starting with the brace forces a match of the brace. -/
theorem charsStartWith_brace {xs l : List Char}
    (h : charsStartWith ('{' :: xs) l = true) : charsStartWith ['{'] l = true := by
  cases l with
  | nil => simp [charsStartWith] at h
  | cons c rest =>
    simp only [charsStartWith, Bool.and_eq_true] at h ⊢
    exact ⟨h.1, trivial⟩

/-- An occurrence of a list starting with the brace forces an occurrence of
the brace. -/
theorem charsContain_brace {xs l : List Char}
    (h : charsContain ('{' :: xs) l = true) : charsContain ['{'] l = true := by
  induction l with
  | nil => simp [charsContain, List.isEmpty] at h
  | cons c rest ih =>
    simp only [charsContain, Bool.or_eq_true] at h ⊢
    rcases h with h | h
    · exact Or.inl (charsStartWith_brace h)
    · exact Or.inr (ih h)

/-- A string containing a placeholder contains the opening brace. -/
theorem strIn_brace {sub t : String} {xs : List Char} (hsub : sub.data = '{' :: xs)
    (h : strIn sub t = true) : strIn "\x7b" t = true := by
  unfold strIn at h ⊢
  rw [hsub] at h
  exact charsContain_brace h

/-- In a brace-free template no placeholder occurs. -/
theorem strIn_placeholder_false {sub t : String} {xs : List Char}
    (hsub : sub.data = '{' :: xs) (hb : strIn "\x7b" t = false) :
    strIn sub t = false := by
  cases hq : strIn sub t
  · rfl
  · rw [strIn_brace hsub hq] at hb
    cases hb

/-- C5 counterexample: the placeholder-free 科幻场景 template with a
non-empty free-text value resolves by appending " with <value>" — without a
comma — not the claimed ", with <value>". -/
theorem with_suffix_counterexample :
    resolve "虚拟场景" "科幻场景" "magic" "modern" =
      .ok "Transform into futuristic sci-fi environment with magic" ∧
    "Transform into futuristic sci-fi environment with magic" ≠
      "Transform into futuristic sci-fi environment" ++ ", with " ++ "magic" :=
  ⟨rfl, by decide⟩

/-- C5 amended: only four categories append the caller's non-empty free text
to a placeholder-free matched template, each with its own separator — avatar
and AI-redraw append ", <value>", virtual-scene appends " with <value>",
poster appends " with <value> theme" — while perspective, style, environment
and removal return such a template unchanged, ignoring the free text. -/
theorem placeholderFree_append (k t v fs : String) (hv : v ≠ "") :
    (tmplLookup "虚拟形象生成" k = some t →
      resolve "虚拟形象生成" k v fs = .ok (t ++ ", " ++ v)) ∧
    (tmplLookup "AI重绘" k = some t → strIn "\x7b" t = false →
      resolve "AI重绘" k v fs = .ok (t ++ ", " ++ v)) ∧
    (tmplLookup "虚拟场景" k = some t → strIn "\x7b" t = false →
      resolve "虚拟场景" k v fs = .ok (t ++ " with " ++ v)) ∧
    (tmplLookup "海报编辑" k = some t → strIn "\x7b" t = false →
      resolve "海报编辑" k v fs = .ok (t ++ " with " ++ v ++ " theme")) ∧
    (tmplLookup "视角转换" k = some t → resolve "视角转换" k v fs = .ok t) ∧
    (tmplLookup "风格转换" k = some t → resolve "风格转换" k v fs = .ok t) ∧
    (tmplLookup "环境变换" k = some t → resolve "环境变换" k v fs = .ok t) ∧
    (tmplLookup "AI消除" k = some t → strIn "\x7b" t = false →
      resolve "AI消除" k v fs = .ok t) := by
  refine ⟨fun ht => ?_, fun ht hb => ?_, fun ht hb => ?_, fun ht hb => ?_,
    fun ht => ?_, fun ht => ?_, fun ht => ?_, fun ht hb => ?_⟩
  · show avatarCase k v (tmplLookup "虚拟形象生成" k) = .ok (t ++ ", " ++ v)
    rw [ht]
    exact avatarCase_ne _ hv
  · show redrawCase k v (tmplLookup "AI重绘" k) = .ok (t ++ ", " ++ v)
    rw [ht]
    simp only [redrawCase]
    rw [strIn_placeholder_false rfl hb, strIn_placeholder_false rfl hb,
      strIn_placeholder_false rfl hb, strIn_placeholder_false rfl hb,
      strIn_placeholder_false rfl hb]
    rfl
  · show sceneSuffix v ((tmplLookup "虚拟场景" k).getD "")
        (sceneBase k v (tmplLookup "虚拟场景" k)) = .ok (t ++ " with " ++ v)
    rw [ht]
    have hbase : sceneBase k v (some t) = .ok t := by
      simp only [sceneBase]
      rw [strIn_placeholder_false rfl hb, strIn_placeholder_false rfl hb,
        strIn_placeholder_false rfl hb]
      rfl
    rw [hbase]
    exact sceneSuffix_app hv hb
  · show posterSuffix v ((tmplLookup "海报编辑" k).getD "")
        (posterBase k v (tmplLookup "海报编辑" k)) = .ok (t ++ " with " ++ v ++ " theme")
    rw [ht]
    have hbase : posterBase k v (some t) = .ok t := by
      simp only [posterBase]
      rw [strIn_placeholder_false rfl hb, strIn_placeholder_false rfl hb]
      rfl
    rw [hbase]
    exact posterSuffix_app hv hb
  · show perspectiveCase k (tmplLookup "视角转换" k) = .ok t
    rw [ht]
    rfl
  · show styleCase k (tmplLookup "风格转换" k) = .ok t
    rw [ht]
    rfl
  · show environmentCase k (tmplLookup "环境变换" k) = .ok t
    rw [ht]
    rfl
  · show removeCase k v (tmplLookup "AI消除" k) = .ok t
    rw [ht]
    simp only [removeCase]
    rw [strIn_placeholder_false rfl hb]
    rfl

/-- Witness for C5 amended at the scene counterexample input. -/
theorem placeholderFree_append_witness :
    resolve "虚拟场景" "科幻场景" "magic" "modern" =
      .ok ("Transform into futuristic sci-fi environment" ++ " with " ++ "magic") :=
  (placeholderFree_append "科幻场景" "Transform into futuristic sci-fi environment"
    "magic" "modern" (by decide)).2.2.1 rfl rfl

/-- C10: for every key of the virtual-scene and poster categories there is a
single, value-independent insertion point for the caller's non-empty free
text: the resolved instruction's characters are a fixed prefix, the value,
and a fixed suffix.  The with-suffix step fires only when the raw template
has no opening brace, so a value substituted into a placeholder is never
additionally appended. -/
theorem scene_poster_value_once {cat : String} (k t : String)
    (hcat : cat = "虚拟场景" ∨ cat = "海报编辑")
    (ht : tmplLookup cat k = some t) :
    ∃ pre suf : List Char, ∀ v fs : String, v ≠ "" →
      ∃ s, resolve cat k v fs = .ok s ∧ s.data = pre ++ v.data ++ suf := by
  rcases hcat with rfl | rfl
  · have hm := tmplLookup_mem_values ht
    fin_cases hm
    · refine ⟨("Transform into futuristic sci-fi environment" ++ " with ").data, [], fun v fs hv => ⟨"Transform into futuristic sci-fi environment" ++ " with " ++ v, ?_, ?_⟩⟩
      · show sceneSuffix v ((tmplLookup "虚拟场景" k).getD "")
            (sceneBase k v (tmplLookup "虚拟场景" k)) = Except.ok ("Transform into futuristic sci-fi environment" ++ " with " ++ v)
        rw [ht]
        exact sceneSuffix_app hv (by rfl)
      · simp [data_append, List.append_assoc]
    · refine ⟨("Create fantasy world with magical elements" ++ " with ").data, [], fun v fs hv => ⟨"Create fantasy world with magical elements" ++ " with " ++ v, ?_, ?_⟩⟩
      · show sceneSuffix v ((tmplLookup "虚拟场景" k).getD "")
            (sceneBase k v (tmplLookup "虚拟场景" k)) = Except.ok ("Create fantasy world with magical elements" ++ " with " ++ v)
        rw [ht]
        exact sceneSuffix_app hv (by rfl)
      · simp [data_append, List.append_assoc]
    · refine ⟨("Transform into historical setting of ").data, [], fun v fs hv => ⟨String.mk (("Transform into historical setting of ").data ++ (v.data ++ [])), ?_, ?_⟩⟩
      · show sceneSuffix v ((tmplLookup "虚拟场景" k).getD "")
            (sceneBase k v (tmplLookup "虚拟场景" k)) = Except.ok (String.mk (("Transform into historical setting of ").data ++ (v.data ++ [])))
        rw [ht]
        exact sceneSuffix_of_brace (by rfl)
      · simp [data_append, List.append_assoc]
    · refine ⟨("Create natural landscape scene with ").data, [], fun v fs hv => ⟨String.mk (("Create natural landscape scene with ").data ++ (v.data ++ [])), ?_, ?_⟩⟩
      · show sceneSuffix v ((tmplLookup "虚拟场景" k).getD "")
            (sceneBase k v (tmplLookup "虚拟场景" k)) = Except.ok (String.mk (("Create natural landscape scene with ").data ++ (v.data ++ [])))
        rw [ht]
        exact sceneSuffix_of_brace (by rfl)
      · simp [data_append, List.append_assoc]
    · refine ⟨("Generate urban cityscape environment" ++ " with ").data, [], fun v fs hv => ⟨"Generate urban cityscape environment" ++ " with " ++ v, ?_, ?_⟩⟩
      · show sceneSuffix v ((tmplLookup "虚拟场景" k).getD "")
            (sceneBase k v (tmplLookup "虚拟场景" k)) = Except.ok ("Generate urban cityscape environment" ++ " with " ++ v)
        rw [ht]
        exact sceneSuffix_app hv (by rfl)
      · simp [data_append, List.append_assoc]
    · refine ⟨("Create interior space design for ").data, [], fun v fs hv => ⟨String.mk (("Create interior space design for ").data ++ (v.data ++ [])), ?_, ?_⟩⟩
      · show sceneSuffix v ((tmplLookup "虚拟场景" k).getD "")
            (sceneBase k v (tmplLookup "虚拟场景" k)) = Except.ok (String.mk (("Create interior space design for ").data ++ (v.data ++ [])))
        rw [ht]
        exact sceneSuffix_of_brace (by rfl)
      · simp [data_append, List.append_assoc]
  · have hm := tmplLookup_mem_values ht
    fin_cases hm
    · refine ⟨("Design movie poster style with ").data, [], fun v fs hv => ⟨String.mk (("Design movie poster style with ").data ++ (v.data ++ [])), ?_, ?_⟩⟩
      · show posterSuffix v ((tmplLookup "海报编辑" k).getD "")
            (posterBase k v (tmplLookup "海报编辑" k)) = Except.ok (String.mk (("Design movie poster style with ").data ++ (v.data ++ [])))
        rw [ht]
        exact posterSuffix_of_brace (by rfl)
      · simp [data_append, List.append_assoc]
    · refine ⟨("Create music concert poster design" ++ " with ").data, " theme".data, fun v fs hv => ⟨"Create music concert poster design" ++ " with " ++ v ++ " theme", ?_, ?_⟩⟩
      · show posterSuffix v ((tmplLookup "海报编辑" k).getD "")
            (posterBase k v (tmplLookup "海报编辑" k)) = Except.ok ("Create music concert poster design" ++ " with " ++ v ++ " theme")
        rw [ht]
        exact posterSuffix_app hv (by rfl)
      · simp [data_append, List.append_assoc]
    · refine ⟨("Design event poster for ").data, [], fun v fs hv => ⟨String.mk (("Design event poster for ").data ++ (v.data ++ [])), ?_, ?_⟩⟩
      · show posterSuffix v ((tmplLookup "海报编辑" k).getD "")
            (posterBase k v (tmplLookup "海报编辑" k)) = Except.ok (String.mk (("Design event poster for ").data ++ (v.data ++ [])))
        rw [ht]
        exact posterSuffix_of_brace (by rfl)
      · simp [data_append, List.append_assoc]
    · refine ⟨("Create product advertisement poster" ++ " with ").data, " theme".data, fun v fs hv => ⟨"Create product advertisement poster" ++ " with " ++ v ++ " theme", ?_, ?_⟩⟩
      · show posterSuffix v ((tmplLookup "海报编辑" k).getD "")
            (posterBase k v (tmplLookup "海报编辑" k)) = Except.ok ("Create product advertisement poster" ++ " with " ++ v ++ " theme")
        rw [ht]
        exact posterSuffix_app hv (by rfl)
      · simp [data_append, List.append_assoc]
    · refine ⟨("Design vintage poster style with retro elements" ++ " with ").data, " theme".data, fun v fs hv => ⟨"Design vintage poster style with retro elements" ++ " with " ++ v ++ " theme", ?_, ?_⟩⟩
      · show posterSuffix v ((tmplLookup "海报编辑" k).getD "")
            (posterBase k v (tmplLookup "海报编辑" k)) = Except.ok ("Design vintage poster style with retro elements" ++ " with " ++ v ++ " theme")
        rw [ht]
        exact posterSuffix_app hv (by rfl)
      · simp [data_append, List.append_assoc]
    · refine ⟨("Create minimalist poster design" ++ " with ").data, " theme".data, fun v fs hv => ⟨"Create minimalist poster design" ++ " with " ++ v ++ " theme", ?_, ?_⟩⟩
      · show posterSuffix v ((tmplLookup "海报编辑" k).getD "")
            (posterBase k v (tmplLookup "海报编辑" k)) = Except.ok ("Create minimalist poster design" ++ " with " ++ v ++ " theme")
        rw [ht]
        exact posterSuffix_app hv (by rfl)
      · simp [data_append, List.append_assoc]

/-- Witness for C10 at a concrete scene key and value. -/
theorem scene_poster_value_once_witness :
    ∃ s, resolve "虚拟场景" "科幻场景" "magic" "modern" = .ok s ∧
      ∃ pre suf : List Char, s.data = pre ++ "magic".data ++ suf := by
  obtain ⟨pre, suf, h⟩ :=
    scene_poster_value_once "科幻场景" "Transform into futuristic sci-fi environment"
      (Or.inl rfl) rfl
  obtain ⟨s, h1, h2⟩ := h "magic" "modern" (by decide)
  exact ⟨s, h1, pre, suf, h2⟩

example : resolve "视角转换" "从正面看" "" "modern" =
    .ok "Change the view to front view, clear and detailed" := rfl

example : resolve "对象变换" "改变颜色" "purple" "modern" =
    .ok "Change the color to purple" := rfl

example : resolve "虚拟场景" "科幻场景" "magic" "modern" =
    .ok "Transform into futuristic sci-fi environment with magic" := rfl

example : resolve "海报编辑" "音乐海报" "rock" "modern" =
    .ok "Create music concert poster design with rock theme" := rfl

example : resolve "AI消除" "移除对象" "" "modern" =
    .ok "Remove the  from the image completely" := rfl

example : resolve "文字设计" "艺术字体" "Hi" "bold" =
    .ok "Add artistic text \x27Hi\x27 with bold style" := rfl

example : resolve "bogus" "x" "" "" = .error .unknownCategory := rfl

example : resolve "视角转换" "从左上方45度俯视" "" "modern" =
    .ok "Change the perspective view to 从左上方45度俯视, clear and detailed" := rfl

end ImgEd
